import Mathlib

/-!
Formal model of the AFK-presence core of `telegram-afk-bot`:

* `app/utils.py`   — `format_duration`
* `app/state.py`   — `BotState`, `save_state`, `load_state`
* `app/main.py`    — `start_afk_handler`, `start_unafk_handler`,
                     `handle_private_message`

Modelling conventions:

* Timestamps and durations are whole seconds (`Int`).  `datetime.now(tz)` is an
  explicit `now : Int` argument; subtraction of datetimes is integer
  subtraction.  `int(td.total_seconds())` with Python's floor-`divmod` on a
  positive divisor coincides with Lean's Euclidean `Int` division, so
  `format_duration` takes the integral second count directly.
* The persisted JSON file is the inductive `Stored`: a missing file, a file
  `json.load` cannot decode (`JSONDecodeError`), a decodable document whose
  top level is not an object (`BotState(**data)` then raises an uncaught
  `TypeError`), or an object with the four known fields.  A field of an object
  is absent, present with a value of the valid type, or present with a value
  pydantic's validation rejects (`ValidationError`, a `ValueError`).  The
  `afk_start_time` field additionally distinguishes a string
  `datetime.fromisoformat` parses from one it rejects.
* `json.dump(state.model_dump(), ..., default=str)` writes all four fields with
  valid values and the timestamp as `str(datetime)`, which
  `datetime.fromisoformat` parses back exactly; hence `save_state` produces a
  record whose timestamp field is parseable.
* Exceptions are `Except Unit`.  The only logging call in `load_state` is the
  `logger.warning` in its `except` clause, modelled as the `Bool` component of
  `load_state_full` (`true` iff that warning is emitted).
* A handler's outbound Telethon call (`event.edit` / `event.reply`) is the
  returned `Directive`; a possible failure of `save_state`'s file write is the
  `writeOk : Bool` parameter (the write either fully succeeds or raises).
-/

namespace AfkBot

/-- A JSON field of an object record: absent, present with a value of the
expected type, or present with a value pydantic validation rejects. -/
inductive JField (α : Type) where
  | absent
  | val (a : α)
  | invalid
deriving DecidableEq, Repr

/-- The raw `afk_start_time` JSON field: absent, a string
`datetime.fromisoformat` parses (carrying the parsed timestamp), a string it
rejects, or a non-string value pydantic's datetime validation rejects. -/
inductive TsRaw where
  | absent
  | iso (t : Int)
  | badStr
  | invalid
deriving DecidableEq, Repr

/-- The persisted state file as `load_state` can encounter it: missing
(`FileNotFoundError`), undecodable (`json.JSONDecodeError`), valid JSON whose
top level is not an object (so `BotState(**data)` raises `TypeError`), or a
JSON object with the four known fields. -/
inductive Stored where
  | missing
  | undecodable
  | nonObject
  | record (afk_message : JField String) (notified_ids : JField (List Int))
      (is_afk : JField Bool) (afk_start_time : TsRaw)
deriving DecidableEq, Repr

/-- The pydantic model `BotState` of `app/state.py`, with `datetime` as an
integral second timestamp. -/
structure BotState where
  afk_message : String
  notified_ids : List Int
  is_afk : Bool
  afk_start_time : Int
deriving DecidableEq, Repr

/-- `BotState()` with every field at its default; `afk_start_time`'s
`default_factory` evaluates `datetime.now(tz)`, the `now` argument here. -/
def BotState.mkDefault (now : Int) : BotState :=
  { afk_message := "", notified_ids := [], is_afk := false, afk_start_time := now }

/-- Value of a validated field, substituting the pydantic default when the
field is absent (callers exclude the `invalid` case separately). -/
def JField.getD {α : Type} (d : α) : JField α → α
  | .absent => d
  | .val a => a
  | .invalid => d

/-- Value taken by `afk_start_time` after the handler's conversion step: a
parseable string yields its timestamp; an absent field takes the
`default_factory` value `now`; an unparsable string is replaced by `now`
(`data["afk_start_time"] = datetime.now(...)` in the inner `except`). -/
def TsRaw.resolve (now : Int) : TsRaw → Int
  | .iso t => t
  | _ => now

/-- `save_state` of `app/state.py`: serializes all four fields; the timestamp
is written as a string `datetime.fromisoformat` parses back. -/
def save_state (s : BotState) : Stored :=
  .record (.val s.afk_message) (.val s.notified_ids) (.val s.is_afk) (.iso s.afk_start_time)

/-- `load_state` of `app/state.py`, also returning whether the
`logger.warning` of the `except` clause fired.  A missing or undecodable file
is caught and yields `BotState()` with the warning.  A non-object document
raises `TypeError`, which the `except (json.JSONDecodeError, ValueError,
FileNotFoundError)` clause does not catch, so the error propagates.  For an
object: an unparsable timestamp string is replaced by `now` inside the inner
`try` (no logging there); then `BotState(**data)` either validates — absent
fields take their defaults — or raises `ValidationError` (a `ValueError`),
caught and yielding `BotState()` with the warning. -/
def load_state_full (now : Int) : Stored → Except Unit (BotState × Bool)
  | .missing => .ok (BotState.mkDefault now, true)
  | .undecodable => .ok (BotState.mkDefault now, true)
  | .nonObject => .error ()
  | .record msgF idsF afkF tsF =>
      if msgF = JField.invalid ∨ idsF = JField.invalid ∨ afkF = JField.invalid
          ∨ tsF = TsRaw.invalid then
        .ok (BotState.mkDefault now, true)
      else
        .ok ({ afk_message := msgF.getD "", notified_ids := idsF.getD [],
               is_afk := afkF.getD false, afk_start_time := tsF.resolve now }, false)

/-- `load_state` as the handlers call it: just the loaded state. -/
def load_state (now : Int) (file : Stored) : Except Unit BotState :=
  (load_state_full now file).map (fun p => p.1)

/-- `format_duration` of `app/utils.py`, applied to the already-truncated
`int(td.total_seconds())` value.  Python's `divmod` is floor division, which
for the positive divisors used here is Lean's Euclidean `Int` division. -/
def format_duration (total_seconds : Int) : String :=
  let days := total_seconds / 86400
  let remainder := total_seconds % 86400
  let hours := remainder / 3600
  let remainder2 := remainder % 3600
  let minutes := remainder2 / 60
  let parts : List String := []
  let parts := if days > 0 then parts ++ [toString days ++ "d"] else parts
  let parts := if hours > 0 then parts ++ [toString hours ++ "h"] else parts
  let parts := if minutes > 0 ∨ parts = [] then parts ++ [toString minutes ++ "m"] else parts
  String.intercalate " " parts

/-- Modelled from the spec, for the refinement claim about the Duration
Formatter: units by successive integer division, fixed order days-hours-minutes
space-separated, zero-valued larger units omitted, minutes always present when
no larger unit is. -/
def format_duration_spec (seconds : Int) : String :=
  let days := seconds / 86400
  let hours := seconds % 86400 / 3600
  let minutes := seconds % 86400 % 3600 / 60
  let units : List String :=
    (if 0 < days then [toString days ++ "d"] else [])
      ++ (if 0 < hours then [toString hours ++ "h"] else [])
      ++ (if 0 < minutes ∨ (¬ 0 < days ∧ ¬ 0 < hours) then [toString minutes ++ "m"] else [])
  String.intercalate " " units

/-- An outbound reply the handler asks the transport to perform: editing the
triggering message (`event.edit`) or replying to a sender (`event.reply`). -/
inductive Directive where
  | edit (text : String)
  | reply (recipient : Int) (text : String)
deriving DecidableEq, Repr

/-- A `save_state` call whose underlying file write can fail: on success the
file now holds the serialized state, on failure the write raises. -/
def save_stateE (writeOk : Bool) (s : BotState) : Except Unit Stored :=
  if writeOk then .ok (save_state s) else .error ()

/-- Response text built by `start_afk_handler`: the message line is appended
only when the message is non-empty (Python truthiness of the string). -/
def afkActivateResponse (afk_message : String) : String :=
  if afk_message = "" then "**AFK mode activated**"
  else "**AFK mode activated**" ++ "\nMessage: `" ++ afk_message ++ "`"

/-- `start_afk_handler` of `app/main.py`: builds a brand-new
`BotState(afk_message=..., is_afk=True)` — `notified_ids` defaults to `[]` and
`afk_start_time`'s `default_factory` to `now` — saves it, then edits the
triggering message.  The prior file is never read. -/
def start_afk_handler (writeOk : Bool) (now : Int) (afk_message : String)
    (file : Stored) : Except Unit (Stored × Directive) :=
  let state : BotState :=
    { afk_message := afk_message, notified_ids := [], is_afk := true, afk_start_time := now }
  match save_stateE writeOk state with
  | .error e => .error e
  | .ok file' =>
      let _ := file
      .ok (file', .edit (afkActivateResponse afk_message))

/-- `start_unafk_handler` of `app/main.py`: loads the state; when AFK it flips
`is_afk` to `False` on the same object, saves, computes
`now - state.afk_start_time`, and edits with the formatted duration; otherwise
it only edits with the not-active text. -/
def start_unafk_handler (writeOk : Bool) (now : Int) (file : Stored) :
    Except Unit (Stored × Directive) :=
  match load_state now file with
  | .error e => .error e
  | .ok state =>
      if state.is_afk then
        let state' := { state with is_afk := false }
        match save_stateE writeOk state' with
        | .error e => .error e
        | .ok file' =>
            let afk_duration := now - state'.afk_start_time
            .ok (file', .edit ("**AFK mode deactivated**" ++ "\nYou were AFK for `"
              ++ format_duration afk_duration ++ "`"))
      else
        .ok (file, .edit "**AFK mode was not active**")

/-- Response text built by `handle_private_message`: the reason line is
appended only when the stored message is non-empty. -/
def afkReplyResponse (afk_message : String) (afk_duration : Int) : String :=
  "**I am currently AFK**"
    ++ (if afk_message = "" then "" else "\nReason: `" ++ afk_message ++ "`")
    ++ ("\nDuration: `" ++ format_duration afk_duration ++ "`")

/-- `handle_private_message` of `app/main.py`.  `is_private` is the
`isinstance(event.peer_id, PeerUser)` test; a non-private event returns before
any state read.  Otherwise: load; return if not AFK; return if the sender is
already in `notified_ids` (the `getattr(state, "notified_ids", [])` default is
unreachable since the field always exists); else append the sender, save, and
reply with the reason (if any) and formatted duration. -/
def handle_private_message (writeOk : Bool) (now : Int) (is_private : Bool)
    (sender_id : Int) (file : Stored) : Except Unit (Stored × Option Directive) :=
  if ¬ is_private then
    .ok (file, none)
  else
    match load_state now file with
    | .error e => .error e
    | .ok state =>
        if ¬ state.is_afk then
          .ok (file, none)
        else if sender_id ∈ state.notified_ids then
          .ok (file, none)
        else
          let state' := { state with notified_ids := state.notified_ids ++ [sender_id] }
          match save_stateE writeOk state' with
          | .error e => .error e
          | .ok file' =>
              let afk_duration := now - state'.afk_start_time
              .ok (file', some (.reply sender_id (afkReplyResponse state'.afk_message afk_duration)))

/-- One inbound event of the message bus. -/
inductive Event where
  | activate (msg : String)
  | deactivate
  | message (is_private : Bool) (sender : Int)

/-- Effect of one sequentially processed event on the persisted file, writes
succeeding; an exception escaping the handler leaves the file untouched. -/
def step (now : Int) (file : Stored) : Event → Stored
  | .activate m =>
      match start_afk_handler true now m file with
      | .ok (f, _) => f
      | .error _ => file
  | .deactivate =>
      match start_unafk_handler true now file with
      | .ok (f, _) => f
      | .error _ => file
  | .message p s =>
      match handle_private_message true now p s file with
      | .ok (f, _) => f
      | .error _ => file

/-- Sequential processing of a list of timestamped events. -/
def run (evs : List (Int × Event)) (file : Stored) : Stored :=
  evs.foldl (fun f pe => step pe.1 f pe.2) file

/-- The `notified_ids` list held by the persisted file (empty when the file
holds no such list). -/
def storedIds : Stored → List Int
  | .record _ (.val l) _ _ => l
  | _ => []

/-- Duplicate-freedom of the persisted `notified_ids`. -/
def fileNodup (file : Stored) : Prop := (storedIds file).Nodup

/-! Helper lemmas shared by the claim theorems. -/

/-- Loading a file just saved reproduces the state exactly. -/
lemma load_state_save_state (s : BotState) (t : Int) : load_state t (save_state s) = .ok s := by
  cases s
  simp [load_state, load_state_full, save_state, JField.getD, TsRaw.resolve, Except.map]

/-- The accumulator of `String.intercalate.go` only ever grows. -/
lemma intercalate_go_length (s : String) :
    ∀ (as : List String) (acc : String), acc.length ≤ (String.intercalate.go acc s as).length := by
  intro as
  induction as with
  | nil => intro acc; simp [String.intercalate.go]
  | cons a t ih =>
      intro acc
      have h := ih (acc ++ s ++ a)
      simp only [String.intercalate.go]
      have : acc.length ≤ (acc ++ s ++ a).length := by
        rw [String.length_append, String.length_append]
        omega
      omega

/-- Intercalating a list whose head is a non-empty string is non-empty. -/
lemma intercalate_cons_ne_empty (a : String) (l : List String) (ha : a.length ≠ 0) :
    String.intercalate " " (a :: l) ≠ "" := by
  intro hc
  have h1 : (String.intercalate.go a " " l).length = 0 := by
    rw [show String.intercalate.go a " " l = String.intercalate " " (a :: l) from rfl, hc]
    rfl
  have h2 := intercalate_go_length " " l a
  omega

/-- The code's conditional list building agrees with the spec's description of
the Duration Formatter for every input. -/
lemma format_duration_eq_spec (s : Int) : format_duration s = format_duration_spec s := by
  unfold format_duration format_duration_spec
  by_cases hd : (0 : Int) < s / 86400 <;>
    by_cases hh : (0 : Int) < s % 86400 / 3600 <;>
      by_cases hm : (0 : Int) < s % 86400 % 3600 / 60 <;>
        simp [hd, hh, hm, gt_iff_lt]

/-- The Duration Formatter never produces the empty string. -/
lemma format_duration_ne_empty (s : Int) : format_duration s ≠ "" := by
  unfold format_duration
  by_cases hd : (0 : Int) < s / 86400 <;>
    by_cases hh : (0 : Int) < s % 86400 / 3600 <;>
      by_cases hm : (0 : Int) < s % 86400 % 3600 / 60 <;>
        simp [hd, hh, hm, gt_iff_lt] <;>
          apply intercalate_cons_ne_empty <;>
            simp [String.length_append] <;>
              exact fun _ => by decide

/-- A state loaded from a duplicate-free file has duplicate-free
`notified_ids`. -/
lemma loaded_notified_ids_nodup (now : Int) (file : Stored) (st : BotState)
    (hf : fileNodup file) (h : load_state now file = .ok st) : st.notified_ids.Nodup := by
  cases file with
  | missing =>
      simp [load_state, load_state_full, Except.map] at h
      rw [← h]
      simp [BotState.mkDefault]
  | undecodable =>
      simp [load_state, load_state_full, Except.map] at h
      rw [← h]
      simp [BotState.mkDefault]
  | nonObject => simp [load_state, load_state_full, Except.map] at h
  | record msgF idsF afkF tsF =>
      by_cases hc : msgF = JField.invalid ∨ idsF = JField.invalid ∨ afkF = JField.invalid
          ∨ tsF = TsRaw.invalid
      · simp [load_state, load_state_full, Except.map, hc] at h
        rw [← h]
        simp [BotState.mkDefault]
      · simp [load_state, load_state_full, Except.map, hc] at h
        rw [← h]
        cases idsF with
        | absent => simp [JField.getD]
        | val l => simpa [fileNodup, storedIds] using hf
        | invalid => simp at hc

/-- One sequentially processed event preserves duplicate-freedom of the
persisted `notified_ids`. -/
lemma step_preserves_nodup (now : Int) (file : Stored) (e : Event)
    (hf : fileNodup file) : fileNodup (step now file e) := by
  cases e with
  | activate m =>
      simp [step, start_afk_handler, save_stateE, save_state, fileNodup, storedIds]
  | deactivate =>
      rcases hload : load_state now file with e' | st
      · simp [step, start_unafk_handler, hload]
        exact hf
      · by_cases ha : st.is_afk
        · simp [step, start_unafk_handler, hload, ha, save_stateE, save_state, fileNodup,
            storedIds]
          exact loaded_notified_ids_nodup now file st hf hload
        · simp [step, start_unafk_handler, hload, ha]
          exact hf
  | message p sender =>
      cases p with
      | false =>
          simp [step, handle_private_message]
          exact hf
      | true =>
          rcases hload : load_state now file with e' | st
          · simp [step, handle_private_message, hload]
            exact hf
          · by_cases ha : st.is_afk
            · by_cases hmem : sender ∈ st.notified_ids
              · simp [step, handle_private_message, hload, ha, hmem]
                exact hf
              · simp [step, handle_private_message, hload, ha, hmem, save_stateE, save_state,
                  fileNodup, storedIds]
                rw [List.nodup_append]
                refine ⟨loaded_notified_ids_nodup now file st hf hload, List.nodup_singleton _, ?_⟩
                simp [List.disjoint_left]
                intro hmem'
                exact hmem hmem'
            · simp [step, handle_private_message, hload, ha]
              exact hf

/-- Sequential processing of any event list preserves duplicate-freedom. -/
lemma run_preserves_nodup : ∀ (evs : List (Int × Event)) (file : Stored),
    fileNodup file → fileNodup (run evs file) := by
  intro evs
  induction evs with
  | nil => intro file hf; simpa [run] using hf
  | cons pe t ih =>
      intro file hf
      have h1 := step_preserves_nodup pe.1 file pe.2 hf
      simpa [run] using ih (step pe.1 file pe.2) h1

/-! Claim theorems. -/

/-- Claim C1, counterexample: from an active state whose `notified_ids`
already contains the sender (here the active record with `notified_ids = [7]`),
two successive private incoming-message events from sender `7` yield zero
reply directives and no state change — not exactly one, and the first event
does not reply, so the claim fails for this active state. -/
theorem first_event_suppressed_for_prenotified_sender :
    handle_private_message true 5 true 7
        (Stored.record (JField.val "") (JField.val [7]) (JField.val true) (TsRaw.iso 0))
      = .ok (Stored.record (JField.val "") (JField.val [7]) (JField.val true) (TsRaw.iso 0), none)
    ∧ handle_private_message true 6 true 7
        (Stored.record (JField.val "") (JField.val [7]) (JField.val true) (TsRaw.iso 0))
      = .ok (Stored.record (JField.val "") (JField.val [7]) (JField.val true) (TsRaw.iso 0),
          none) :=
  ⟨rfl, rfl⟩

/-- Claim C1, amended: starting from any active state in which the sender is
not yet in `notified_ids`, two successive private incoming-message events from
that sender yield exactly one reply directive — the first appends the sender
to `notified_ids` and replies to the sender, the second finds the sender in
`notified_ids` and is suppressed (no directive, no state change). -/
theorem at_most_once_notification (now₁ now₂ sender : Int) (file : Stored) (st : BotState)
    (hload : load_state now₁ file = .ok st) (hafk : st.is_afk = true)
    (hnew : sender ∉ st.notified_ids) :
    ∃ file₁ text,
      handle_private_message true now₁ true sender file
        = .ok (file₁, some (Directive.reply sender text))
      ∧ load_state now₂ file₁ = .ok { st with notified_ids := st.notified_ids ++ [sender] }
      ∧ handle_private_message true now₂ true sender file₁ = .ok (file₁, none) := by
  refine ⟨save_state { st with notified_ids := st.notified_ids ++ [sender] },
    afkReplyResponse st.afk_message (now₁ - st.afk_start_time), ?_, ?_, ?_⟩
  · simp [handle_private_message, hload, hafk, hnew, save_stateE]
  · exact load_state_save_state _ _
  · simp [handle_private_message, load_state_save_state, hafk]

/-- Witness for the amended claim C1 at a concrete active state. -/
theorem at_most_once_notification_witness :
    ∃ file₁ text,
      handle_private_message true 1 true 7 (save_state ⟨"", [], true, 0⟩)
        = .ok (file₁, some (Directive.reply 7 text))
      ∧ load_state 2 file₁ = .ok ⟨"", [7], true, 0⟩
      ∧ handle_private_message true 2 true 7 file₁ = .ok (file₁, none) :=
  at_most_once_notification 1 2 7 (save_state ⟨"", [], true, 0⟩) ⟨"", [], true, 0⟩
    (load_state_save_state ⟨"", [], true, 0⟩ 1) rfl (by simp)

/-- Claim C2: activation ignores the prior file entirely and persists a
brand-new state with `is_afk = true`, the given message, `afk_start_time =
now`, and empty `notified_ids`; in particular after Activate(m₁), notifying a
sender, Deactivate, then Activate(m₂), the persisted state has empty
`notified_ids` and message `m₂`. -/
theorem session_reset_on_activation (file : Stored) (now₁ now₂ now₃ now₄ t : Int)
    (m₁ m₂ : String) (sender : Int) :
    (start_afk_handler true now₄ m₂ file
      = .ok (save_state { afk_message := m₂, notified_ids := [], is_afk := true,
                          afk_start_time := now₄ },
          Directive.edit (afkActivateResponse m₂)))
    ∧ (load_state t (step now₄ file (Event.activate m₂))
      = .ok { afk_message := m₂, notified_ids := [], is_afk := true, afk_start_time := now₄ })
    ∧ (load_state t (step now₂ (step now₁ file (Event.activate m₁)) (Event.message true sender))
      = .ok { afk_message := m₁, notified_ids := [sender], is_afk := true,
              afk_start_time := now₁ })
    ∧ (load_state t
        (step now₄
          (step now₃
            (step now₂ (step now₁ file (Event.activate m₁)) (Event.message true sender))
            Event.deactivate)
          (Event.activate m₂))
      = .ok { afk_message := m₂, notified_ids := [], is_afk := true,
              afk_start_time := now₄ }) := by
  refine ⟨by simp [start_afk_handler, save_stateE], ?_, ?_, ?_⟩
  · simp [step, start_afk_handler, save_stateE, load_state_save_state]
  · simp [step, start_afk_handler, save_stateE, handle_private_message, load_state_save_state]
  · simp [step, start_afk_handler, save_stateE, load_state_save_state]

/-- Claim C3: saving any state and loading it back reproduces an equivalent
state — same message, same set of notified identifiers, same `is_afk` flag,
and the same timestamp (the model carries timestamps at second granularity,
where the serialized form round-trips exactly). -/
theorem save_load_round_trip (s : BotState) (t : Int) :
    ∃ s', load_state t (save_state s) = .ok s'
      ∧ s'.afk_message = s.afk_message
      ∧ (∀ x : Int, x ∈ s'.notified_ids ↔ x ∈ s.notified_ids)
      ∧ s'.is_afk = s.is_afk
      ∧ s'.afk_start_time = s.afk_start_time :=
  ⟨s, load_state_save_state s t, rfl, fun _ => Iff.rfl, rfl, rfl⟩

/-- Claim C4, code behaviour at the failing input: a missing file, an
undecodable file, and a record failing field validation all recover to the
default state with a warning, but a syntactically valid JSON document whose
top level is not an object makes `load_state` raise an uncaught `TypeError`
instead of returning the default state — the error propagates, contradicting
the claim. -/
theorem load_state_default_on_corruption :
    (∀ now : Int, load_state_full now Stored.missing = .ok (BotState.mkDefault now, true))
    ∧ (∀ now : Int, load_state_full now Stored.undecodable = .ok (BotState.mkDefault now, true))
    ∧ (∀ (now : Int) (m : String) (b : Bool) (ts : TsRaw),
        load_state_full now (Stored.record (JField.val m) JField.invalid (JField.val b) ts)
          = .ok (BotState.mkDefault now, true))
    ∧ load_state_full 0 Stored.nonObject = .error () := by
  refine ⟨fun _ => rfl, fun _ => rfl, ?_, rfl⟩
  intro now m b ts
  simp [load_state_full]

/-- Claim C5: deactivation loads the state; when inactive nothing is written
and the directive says AFK was not active; when active exactly the `is_afk`
field is flipped to `false` in the persisted record (message, `notified_ids`
and `afk_start_time` as-is), the write happens, and the directive carries the
elapsed time `now - afk_start_time` formatted by the Duration Formatter. -/
theorem deactivate_postcondition (now : Int) (file : Stored) (st : BotState)
    (hload : load_state now file = .ok st) :
    (st.is_afk = false →
      start_unafk_handler true now file = .ok (file, Directive.edit "**AFK mode was not active**"))
    ∧ (st.is_afk = true →
      start_unafk_handler true now file
        = .ok (Stored.record (JField.val st.afk_message) (JField.val st.notified_ids)
              (JField.val false) (TsRaw.iso st.afk_start_time),
            Directive.edit ("**AFK mode deactivated**" ++ "\nYou were AFK for `"
              ++ format_duration (now - st.afk_start_time) ++ "`"))) := by
  constructor
  · intro hne
    simp [start_unafk_handler, hload, hne]
  · intro hyes
    simp [start_unafk_handler, hload, hyes, save_stateE, save_state]

/-- Witness for claim C5, both branches at concrete states. -/
theorem deactivate_postcondition_witness :
    start_unafk_handler true 0 (save_state ⟨"", [], false, 0⟩)
      = .ok (save_state ⟨"", [], false, 0⟩, Directive.edit "**AFK mode was not active**")
    ∧ start_unafk_handler true 10 (save_state ⟨"x", [3], true, 4⟩)
      = .ok (Stored.record (JField.val "x") (JField.val [3]) (JField.val false) (TsRaw.iso 4),
          Directive.edit "**AFK mode deactivated**\nYou were AFK for `0m`") :=
  ⟨(deactivate_postcondition 0 (save_state ⟨"", [], false, 0⟩) ⟨"", [], false, 0⟩
      (load_state_save_state ⟨"", [], false, 0⟩ 0)).1 rfl,
   (deactivate_postcondition 10 (save_state ⟨"x", [3], true, 4⟩) ⟨"x", [3], true, 4⟩
      (load_state_save_state ⟨"x", [3], true, 4⟩ 10)).2 rfl⟩

/-- Claim C6: for every non-negative duration the formatter output follows the
spec's unit computation and omission rules (refinement against
`format_duration_spec`, which is written from the spec's words) and is never
empty; and the spec's example table holds: 0s and 59s give "0m", 125 minutes
gives "2h 5m", 1 day 0 hours 3 minutes gives "1d 3m", 3 days 4 hours 0 minutes
gives "3d 4h". -/
theorem format_duration_correct :
    (∀ s : Int, 0 ≤ s →
        format_duration s = format_duration_spec s ∧ format_duration s ≠ "")
    ∧ format_duration 0 = "0m"
    ∧ format_duration 59 = "0m"
    ∧ format_duration 7500 = "2h 5m"
    ∧ format_duration 86580 = "1d 3m"
    ∧ format_duration 273600 = "3d 4h" :=
  ⟨fun s _ => ⟨format_duration_eq_spec s, format_duration_ne_empty s⟩,
    rfl, rfl, rfl, rfl, rfl⟩

/-- Witness for claim C6 at the concrete duration of 125 minutes. -/
theorem format_duration_correct_witness :
    format_duration 7500 = format_duration_spec 7500 ∧ format_duration 7500 ≠ "" :=
  format_duration_correct.1 7500 (by decide)

/-- Claim C7, counterexample: a record that is otherwise valid but whose
timestamp field is an unparsable string has only that field replaced with
`now` and the other fields kept — but no diagnostic is emitted (the warning
flag is `false`, where the claim requires it logged). -/
theorem ts_recovery_not_logged :
    load_state_full 42 (Stored.record (JField.val "x") (JField.val [3]) (JField.val true)
        TsRaw.badStr)
      = .ok ({ afk_message := "x", notified_ids := [3], is_afk := true, afk_start_time := 42 },
          false)
    ∧ load_state_full 42 (Stored.record (JField.val "x") (JField.val [3]) (JField.val true)
        TsRaw.badStr)
      ≠ .ok ({ afk_message := "x", notified_ids := [3], is_afk := true, afk_start_time := 42 },
          true) := by
  refine ⟨by simp [load_state_full, JField.getD, TsRaw.resolve], ?_⟩
  intro h
  rw [show load_state_full 42 (Stored.record (JField.val "x") (JField.val [3])
      (JField.val true) TsRaw.badStr)
    = .ok ({ afk_message := "x", notified_ids := [3], is_afk := true, afk_start_time := 42 },
        false) from by simp [load_state_full, JField.getD, TsRaw.resolve]] at h
  simp at h

/-- Claim C7, amended: for every persisted record that is otherwise valid but
whose timestamp field is present and unparsable, load replaces only that field
with the current time — without emitting a diagnostic — and keeps the other
fields (message, notified identifiers, active flag) as stored. -/
theorem ts_field_recovery (now : Int) (m : String) (l : List Int) (b : Bool) :
    load_state_full now (Stored.record (JField.val m) (JField.val l) (JField.val b) TsRaw.badStr)
      = .ok ({ afk_message := m, notified_ids := l, is_afk := b, afk_start_time := now },
          false) := by
  simp [load_state_full, JField.getD, TsRaw.resolve]

/-- Claim C8: on every event path that writes state — activation, deactivation
while active, and the private-message auto-reply — the save precedes the reply
directive, so a failing storage write makes the handler propagate the error
and produce no directive. -/
theorem reply_contingent_on_persistence :
    (∀ (now : Int) (m : String) (file : Stored),
        start_afk_handler false now m file = .error ())
    ∧ (∀ (now : Int) (file : Stored) (st : BotState),
        load_state now file = .ok st → st.is_afk = true →
          start_unafk_handler false now file = .error ())
    ∧ (∀ (now sender : Int) (file : Stored) (st : BotState),
        load_state now file = .ok st → st.is_afk = true → sender ∉ st.notified_ids →
          handle_private_message false now true sender file = .error ()) := by
  refine ⟨?_, ?_, ?_⟩
  · intro now m file
    simp [start_afk_handler, save_stateE]
  · intro now file st h ha
    simp [start_unafk_handler, h, ha, save_stateE]
  · intro now sender file st h ha hn
    simp [handle_private_message, h, ha, hn, save_stateE]

/-- Witness for claim C8: each writing path at a concrete input with the write
failing. -/
theorem reply_contingent_on_persistence_witness :
    start_afk_handler false 0 "" Stored.missing = .error ()
    ∧ start_unafk_handler false 10 (save_state ⟨"x", [3], true, 4⟩) = .error ()
    ∧ handle_private_message false 10 true 7 (save_state ⟨"x", [3], true, 4⟩) = .error () :=
  ⟨reply_contingent_on_persistence.1 0 "" Stored.missing,
   reply_contingent_on_persistence.2.1 10 (save_state ⟨"x", [3], true, 4⟩) ⟨"x", [3], true, 4⟩
      (load_state_save_state ⟨"x", [3], true, 4⟩ 10) rfl,
   reply_contingent_on_persistence.2.2 10 7 (save_state ⟨"x", [3], true, 4⟩) ⟨"x", [3], true, 4⟩
      (load_state_save_state ⟨"x", [3], true, 4⟩ 10) rfl (by simp)⟩

/-- Claim C9: a non-private incoming-message event produces no directive and
leaves the persisted file untouched, for every file content (even one whose
read would raise), every clock value and every write-failure mode — the
handler returns before any state access. -/
theorem non_private_message_inert (writeOk : Bool) (now sender : Int) (file : Stored) :
    handle_private_message writeOk now false sender file = .ok (file, none) := rfl

/-- Claim C10: every event handler preserves duplicate-freedom of the
persisted `notified_ids` — activation persists an empty list, deactivation
re-persists the list unchanged, and the private-message handler appends a
sender only after the membership check fails — so processing any sequence of
events from a duplicate-free file keeps every persisted `notified_ids`
duplicate-free. -/
theorem notified_ids_duplicate_free :
    (∀ (now : Int) (file : Stored) (e : Event),
        fileNodup file → fileNodup (step now file e))
    ∧ (∀ (evs : List (Int × Event)) (file : Stored),
        fileNodup file → fileNodup (run evs file)) :=
  ⟨fun now file e hf => step_preserves_nodup now file e hf,
   fun evs file hf => run_preserves_nodup evs file hf⟩

/-- Witness for claim C10 on a concrete event sequence that activates and then
receives the same private sender twice. -/
theorem notified_ids_duplicate_free_witness :
    fileNodup (run [(0, Event.activate "x"), (1, Event.message true 5),
        (2, Event.message true 5)] Stored.missing) :=
  notified_ids_duplicate_free.2
    [(0, Event.activate "x"), (1, Event.message true 5), (2, Event.message true 5)]
    Stored.missing List.nodup_nil

end AfkBot

